import Mathlib

/-!
Verification of the retrieval / search-booster pipeline of the chatbot
repository.

Source-embedded definitions (translated line by line from the repository):
* `boostFoo` — the reference "ensure source foo is present" booster from the
  retrieval documentation page (the only booster whose merge code is in the
  repository).
* `boostManual_shouldBoostFunc` and the `boostManual` / primary-query
  configuration constants — from `packages/chatbot-server-mongodb-public/src/config.ts`.

The pipeline orchestrator (`makeDefaultFindContent`) and the booster factory
(`makeBoostOnAtlasSearchFilter`) live in the `mongodb-chatbot-server` library,
whose implementation is not part of the inspected sources; those parts are
modelled from the specification and are marked as such in their doc comments.

Scores are modelled as rationals: every claim under study concerns only the
ordering and equality of scores, which the rationals represent faithfully.
Query and content text is modelled as `List Char`.
-/

namespace ChatbotRetrieval

/-- Text (query text, content text, source names) as a list of characters. -/
abbrev Str := List Char

/-- A `WithScore<EmbeddedContent>` item: content text, its data-source name,
and the similarity score attached by the vector store. -/
structure ScoredItem where
  text : Str
  sourceName : Str
  score : ℚ
deriving DecidableEq

/-- Descending-score order on scored items: `a` may come before `b` exactly
when `b.score ≤ a.score`.  This is the order produced by the JavaScript
comparator `(a, b) => b.score - a.score`. -/
def scoreGe (a b : ScoredItem) : Prop := b.score ≤ a.score

instance : DecidableRel scoreGe := fun a b => inferInstanceAs (Decidable (b.score ≤ a.score))

instance : IsTotal ScoredItem scoreGe := ⟨fun a b => le_total b.score a.score⟩

instance : IsTrans ScoredItem scoreGe := ⟨fun _ _ _ h1 h2 => le_trans h2 h1⟩

/-- The JavaScript call `results.sort((a, b) => b.score - a.score)`: a stable
sort of the result list into descending score order. -/
def sortByScoreDesc (l : List ScoredItem) : List ScoredItem :=
  l.insertionSort scoreGe

/-- JavaScript `hay.startsWith(needle)` on character lists. -/
def startsWithChars : Str → Str → Bool
  | _, [] => true
  | [], _ :: _ => false
  | c :: cs, d :: ds => c == d && startsWithChars cs ds

/-- JavaScript `hay.includes(needle)` on character lists: `needle` occurs as a
contiguous substring of `hay`. -/
def jsIncludes (hay needle : Str) : Bool :=
  startsWithChars hay needle ||
    match hay with
    | [] => false
    | _ :: t => jsIncludes t needle

/-- Accumulator-based splitting of a character list at every space character,
mirroring JavaScript `text.split(" ")`: adjacent, leading and trailing
separators produce empty-string elements, and `"".split(" ")` is `[""]`. -/
def jsSplitSpaceAux : Str → Str → List Str
  | [], acc => [acc.reverse]
  | c :: cs, acc =>
    if c = ' ' then acc.reverse :: jsSplitSpaceAux cs [] else jsSplitSpaceAux cs (c :: acc)

/-- JavaScript `text.split(" ")` on character lists. -/
def jsSplitSpace (text : Str) : List Str := jsSplitSpaceAux text []

/-! ### The reference booster `boostFoo` (documentation page, lines 95–132) -/

/-- Predicate `boostFoo.shouldBoostFunc`: the booster applies when the query
text contains the substring `"foo"`. -/
def boostFoo_shouldBoostFunc (text : Str) : Bool := jsIncludes text ("foo".data)

/-- The merge step of `boostFoo.boost` (documentation page, lines 122–131),
as a pure function of the secondary-query results `boostedResults` and the
pre-boost results `existingResults`.  Translated statement by statement:

```
const fewerExistingResults = existingResults.slice(0, 3);
// No duplicates
const newResults = fewerExistingResults.filter((result) =>
  boostedResults.every((manualResult) => manualResult.text !== result.text)
);
//
return [...boostedResults, ...fewerExistingResults].sort(
  (a, b) => b.score - a.score
);
```

Note that the source binds `newResults` (the deduplicated carry-over list)
but the return statement spreads `fewerExistingResults`, not `newResults`;
the translation preserves this. -/
def boostFooMergeStep (boostedResults existingResults : List ScoredItem) : List ScoredItem :=
  let fewerExistingResults := existingResults.take 3
  let newResults := fewerExistingResults.filter
    (fun result => boostedResults.all (fun manualResult => manualResult.text != result.text))
  have _ := newResults
  sortByScoreDesc (boostedResults ++ fewerExistingResults)

/-- The options of `boostFoo`'s secondary store query (documentation page,
lines 108–121): `k: 2`, `minScore: 0`. -/
def boostFooOptionsK : Nat := 2

/-- Field `minScore: 0` (commented `no min score` in the source) of
`boostFoo`'s secondary query. -/
def boostFooMinScore : ℚ := 0

/-- The metadata filter of `boostFoo`'s secondary query:
`filter: { dataSource: "foo" }`. -/
def boostFooFilter : List (Str × Str) := [("dataSource".data, "foo".data)]

/-! ### Configuration constants from
`packages/chatbot-server-mongodb-public/src/config.ts` -/

/-- Predicate `boostManual.shouldBoostFunc` (config.ts lines 50–52):

```
async shouldBoostFunc({ text }: { text: string }) {
  return text.split(" ").filter((s) => s !== " ").length <= 3;
}
```
-/
def boostManual_shouldBoostFunc (text : Str) : Bool :=
  decide (((jsSplitSpace text).filter (fun s => s != (" ".data))).length ≤ 3)

/-- Field `k: 2` of `boostManual`'s `findNearestNeighborsOptions`
(config.ts line 57). -/
def boostManualK : Nat := 2

/-- Field `minScore: 0.88` of `boostManual`'s `findNearestNeighborsOptions`
(config.ts line 58). -/
def boostManualMinScore : ℚ := mkRat 88 100

/-- The metadata filter of `boostManual`'s secondary query
(config.ts lines 54–56): `filter: { sourceName: "snooty-docs" }`. -/
def boostManualFilter : List (Str × Str) := [("sourceName".data, "snooty-docs".data)]

/-- Field `totalMaxK: 5` passed to `makeBoostOnAtlasSearchFilter`
(config.ts line 60). -/
def boostManualTotalMaxK : Nat := 5

/-- Field `k: 5` of the primary query's `findNearestNeighborsOptions`
(config.ts line 112). -/
def configPrimaryK : Nat := 5

/-- Field `minScore: 0.9` of the primary query's `findNearestNeighborsOptions`
(config.ts line 115). -/
def configPrimaryMinScore : ℚ := mkRat 9 10

/-- Field `minScore: 0.9` of the primary query in the documentation page's
`makeDefaultFindContentFunc` example (lines 60–65), the primary query that
the `boostFoo` example is configured against. -/
def docPrimaryMinScore : ℚ := mkRat 9 10

/-! ### The retrieval pipeline

Modelled from the spec: the orchestrator `makeDefaultFindContent` and the
booster factory `makeBoostOnAtlasSearchFilter` of the `mongodb-chatbot-server`
library are not among the inspected sources; the definitions below follow the
specification's description of the pipeline (embed once, primary store query,
fold the boosters in order, optional final `totalMaxK` truncation, booster
failures recovered locally). -/

/-- Options of one nearest-neighbour store query: maximum result count `k`
and inclusive minimum score. -/
structure NNOptions where
  k : Nat
  minScore : ℚ
deriving DecidableEq

/-- A metadata filter of a store query, as field-name/value pairs. -/
abbrev MetaFilter := List (Str × Str)

/-- A record of one store query: the embedding it was issued with, its
options and its optional metadata filter. -/
structure QueryDesc where
  embedding : List ℚ
  options : NNOptions
  filter : Option MetaFilter
deriving DecidableEq

/-- The content store as a black-box query function: embedding, options and
optional filter to either a scored result list or a store-query failure. -/
abbrev Store := List ℚ → NNOptions → Option MetaFilter → Except Unit (List ScoredItem)

/-- The embedder as a black-box function: query text to either an embedding
vector or an embedding failure. -/
abbrev Embedder := Str → Except Unit (List ℚ)

/-- Modelled from the spec: a search booster in the shape of the reference
"ensure source present" policy — a predicate on the raw query text, the
options and metadata filter of its single secondary store query, and a merge
function of the secondary-query results and the current result set.  The
merge receives only result lists, never the raw query text. -/
structure Booster where
  shouldApply : Str → Bool
  secOptions : NNOptions
  secFilter : Option MetaFilter
  merge : List ScoredItem → List ScoredItem → Except Unit (List ScoredItem)

/-- The booster of the documentation page, assembled from its translated
parts: predicate `boostFoo_shouldBoostFunc`, secondary query with `k = 2`,
`minScore = 0` and filter `dataSource: "foo"`, and merge `boostFooMergeStep`. -/
def boostFoo : Booster where
  shouldApply := boostFoo_shouldBoostFunc
  secOptions := ⟨boostFooOptionsK, boostFooMinScore⟩
  secFilter := some boostFooFilter
  merge := fun boostedResults existingResults =>
    .ok (boostFooMergeStep boostedResults existingResults)

/-- Modelled from the spec: one fold step of the pipeline.  When the
booster's predicate holds for the query text, its secondary store query is
run and its merge applied; a failure of either is recovered locally and the
result set is left unchanged.  When the predicate is false the result set is
unchanged and no store query is made.  The second component records the store
queries attempted. -/
def runBooster (store : Store) (e : List ℚ) (q : Str) (b : Booster)
    (results : List ScoredItem) : List ScoredItem × List QueryDesc :=
  if b.shouldApply q then
    (match store e b.secOptions b.secFilter with
     | .error _ => results
     | .ok boosted =>
       match b.merge boosted results with
       | .error _ => results
       | .ok merged => merged,
     [⟨e, b.secOptions, b.secFilter⟩])
  else (results, [])

/-- Modelled from the spec: the fold of the configured boosters, in
declaration order, over the primary result set, accumulating the store
queries attempted. -/
def foldBoosters (store : Store) (e : List ℚ) (q : Str) :
    List Booster → List ScoredItem → List ScoredItem × List QueryDesc
  | [], results => (results, [])
  | b :: bs, results =>
    let step := runBooster store e q b results
    let rest := foldBoosters store e q bs step.1
    (rest.1, step.2 ++ rest.2)

/-- The typed failures of `retrieve`. -/
inductive RetrieveError where
  | embeddingError
  | storeQueryError
deriving DecidableEq

/-- Construction-time pipeline configuration: primary query options, ordered
booster list, optional global `totalMaxK`. -/
structure RetrieveConfig where
  primaryOptions : NNOptions
  boosters : List Booster
  totalMaxK : Option Nat

/-- A record of the external calls one retrieval made: how many times the
embedder was called and which store queries were issued, in order. -/
structure Trace where
  embedCalls : Nat
  storeQueries : List QueryDesc
deriving DecidableEq

/-- Modelled from the spec: the optional global truncation — when
`totalMaxK = n` is configured the result is the `n` highest-scored items
remaining after all boosters have run; otherwise the result passes through
unmodified. -/
def applyTotalMaxK (totalMaxK : Option Nat) (results : List ScoredItem) : List ScoredItem :=
  match totalMaxK with
  | none => results
  | some n => (sortByScoreDesc results).take n

/-- Modelled from the spec: the pipeline before the optional `totalMaxK`
truncation.  Embed once (fatal `embeddingError` on failure, no store query
attempted), primary store query (fatal `storeQueryError` on failure), then
fold the boosters.  Alongside the result, the trace of external calls. -/
def retrieveCore (embedder : Embedder) (store : Store) (cfg : RetrieveConfig)
    (q : Str) : Except RetrieveError (List ScoredItem) × Trace :=
  match embedder q with
  | .error _ => (.error .embeddingError, ⟨1, []⟩)
  | .ok e =>
    match store e cfg.primaryOptions none with
    | .error _ => (.error .storeQueryError, ⟨1, [⟨e, cfg.primaryOptions, none⟩]⟩)
    | .ok primary =>
      let folded := foldBoosters store e q cfg.boosters primary
      (.ok folded.1, ⟨1, ⟨e, cfg.primaryOptions, none⟩ :: folded.2⟩)

/-- Modelled from the spec: the full pipeline — `retrieveCore` followed by
the optional `totalMaxK` truncation of a successful result. -/
def retrieve (embedder : Embedder) (store : Store) (cfg : RetrieveConfig)
    (q : Str) : Except RetrieveError (List ScoredItem) × Trace :=
  let core := retrieveCore embedder store cfg q
  (core.1.map (applyTotalMaxK cfg.totalMaxK), core.2)

/-! ### Concrete fixtures used by scenario evaluations and witnesses -/

/-- Build a scored item from string literals. -/
def mkItem (t s : String) (sc : ℚ) : ScoredItem := ⟨t.data, s.data, sc⟩

/-- The five primary results of the spec's worked scenario, scored
0.95, 0.93, 0.91, 0.90, 0.89. -/
def scenarioPrimary : List ScoredItem :=
  [mkItem "p1" "docs" (mkRat 95 100), mkItem "p2" "docs" (mkRat 93 100),
   mkItem "p3" "docs" (mkRat 91 100), mkItem "p4" "docs" (mkRat 90 100),
   mkItem "p5" "docs" (mkRat 89 100)]

/-- The two boosted results of the spec's worked scenario, scored 0.80 and
0.78, from a source distinct from the primary five. -/
def scenarioBoosted : List ScoredItem :=
  [mkItem "b1" "foo" (mkRat 80 100), mkItem "b2" "foo" (mkRat 78 100)]

/-- The expected output of the worked scenario: the two boosted items plus
the top three primary items, in descending score order. -/
def scenarioExpected : List ScoredItem :=
  [mkItem "p1" "docs" (mkRat 95 100), mkItem "p2" "docs" (mkRat 93 100),
   mkItem "p3" "docs" (mkRat 91 100), mkItem "b1" "foo" (mkRat 80 100),
   mkItem "b2" "foo" (mkRat 78 100)]

/-- A boosted item whose text coincides with a carried-over item's text. -/
def dupBoosted : ScoredItem := mkItem "dup" "foo" (mkRat 9 10)

/-- A pre-existing item whose text coincides with a boosted item's text. -/
def dupExisting : ScoredItem := mkItem "dup" "docs" (mkRat 1 2)

/-- A constant embedder producing the one-dimensional embedding `[1]`. -/
def embConst : Embedder := fun _ => .ok [1]

/-- An always-failing embedder. -/
def embFail : Embedder := fun _ => .error ()

/-- A store answering every query with one fixed singleton result. -/
def storeConst : Store := fun _ _ _ => .ok [mkItem "w" "docs" 1]

/-- An always-failing store. -/
def storeFail : Store := fun _ _ _ => .error ()

/-- A store that answers the primary query (no filter) with the scenario's
five primary results and every filtered query with an error: the failing
secondary query of the spec's failure scenario. -/
def storeSecondaryFails : Store := fun _ _ f =>
  match f with
  | none => .ok scenarioPrimary
  | some _ => .error ()

/-- A booster whose predicate never holds. -/
def boosterNever : Booster where
  shouldApply := fun _ => false
  secOptions := ⟨2, 0⟩
  secFilter := some boostFooFilter
  merge := fun boosted existing => .ok (boostFooMergeStep boosted existing)

/-- A pipeline configuration with no boosters and no `totalMaxK`. -/
def cfgPlain : RetrieveConfig := ⟨⟨5, mkRat 9 10⟩, [], none⟩

/-- A pipeline configuration whose single booster never applies. -/
def cfgNever : RetrieveConfig := ⟨⟨5, mkRat 9 10⟩, [boosterNever], none⟩

/-- A pipeline configuration with the reference booster `boostFoo` and no
`totalMaxK`. -/
def cfgFoo : RetrieveConfig := ⟨⟨5, mkRat 9 10⟩, [boostFoo], none⟩

/-- A pipeline configuration with no boosters and `totalMaxK = 5`, the
deployed value. -/
def cfgCapped : RetrieveConfig := ⟨⟨5, mkRat 9 10⟩, [], some boostManualTotalMaxK⟩

/-! ### Helper lemmas -/

theorem sortByScoreDesc_sorted (l : List ScoredItem) : (sortByScoreDesc l).Sorted scoreGe :=
  List.sorted_insertionSort scoreGe l

theorem sortByScoreDesc_perm (l : List ScoredItem) : List.Perm (sortByScoreDesc l) l :=
  List.perm_insertionSort scoreGe l

theorem boostFooMergeStep_eq (boosted existing : List ScoredItem) :
    boostFooMergeStep boosted existing = sortByScoreDesc (boosted ++ existing.take 3) := rfl

theorem runBooster_snd (store : Store) (e : List ℚ) (q : Str) (b : Booster)
    (rs : List ScoredItem) :
    (runBooster store e q b rs).2 =
      if b.shouldApply q then [⟨e, b.secOptions, b.secFilter⟩] else [] := by
  unfold runBooster
  split <;> rfl

theorem runBooster_noapply (store : Store) (e : List ℚ) (q : Str) (b : Booster)
    (rs : List ScoredItem) (h : b.shouldApply q = false) :
    runBooster store e q b rs = (rs, []) := by
  unfold runBooster
  rw [h]
  simp

theorem runBooster_fst_cases (store : Store) (e : List ℚ) (q : Str) (b : Booster)
    (rs : List ScoredItem) :
    (runBooster store e q b rs).1 = rs ∨
      ∃ boosted, store e b.secOptions b.secFilter = .ok boosted ∧
        b.merge boosted rs = .ok (runBooster store e q b rs).1 := by
  unfold runBooster
  by_cases h : b.shouldApply q
  · rw [if_pos h]
    rcases hst : store e b.secOptions b.secFilter with u | boosted
    · left
      simp [hst]
    · rcases hm : b.merge boosted rs with u | merged
      · left
        simp [hst, hm]
      · right
        refine ⟨boosted, ?_, ?_⟩ <;> simp [hst, hm]
  · rw [if_neg h]
    exact Or.inl rfl

theorem runBooster_fail (store : Store) (e : List ℚ) (q : Str) (b : Booster)
    (rs : List ScoredItem)
    (h : store e b.secOptions b.secFilter = .error () ∨
      ∃ boosted, store e b.secOptions b.secFilter = .ok boosted ∧
        b.merge boosted rs = .error ()) :
    (runBooster store e q b rs).1 = rs := by
  unfold runBooster
  by_cases hq : b.shouldApply q
  · rw [if_pos hq]
    rcases h with h | ⟨boosted, hst, hm⟩
    · simp [h]
    · simp [hst, hm]
  · rw [if_neg hq]

theorem foldBoosters_fst_sorted (store : Store) (e : List ℚ) (q : Str) :
    ∀ (bs : List Booster) (rs : List ScoredItem),
      (∀ b ∈ bs, ∀ bo ex r, b.merge bo ex = .ok r → r.Sorted scoreGe) →
      rs.Sorted scoreGe → (foldBoosters store e q bs rs).1.Sorted scoreGe := by
  intro bs
  induction bs with
  | nil => intro rs _ hrs; exact hrs
  | cons b bs ih =>
    intro rs hmerge hrs
    show (foldBoosters store e q bs (runBooster store e q b rs).1).1.Sorted scoreGe
    apply ih
    · intro b' hb'; exact hmerge b' (List.mem_cons_of_mem b hb')
    · rcases runBooster_fst_cases store e q b rs with h | ⟨boosted, _, hm⟩
      · rw [h]; exact hrs
      · exact hmerge b (List.mem_cons_self b bs) boosted rs _ hm

theorem foldBoosters_noapply (store : Store) (e : List ℚ) (q : Str) :
    ∀ (bs : List Booster) (rs : List ScoredItem),
      (∀ b ∈ bs, b.shouldApply q = false) →
      foldBoosters store e q bs rs = (rs, []) := by
  intro bs
  induction bs with
  | nil => intro rs _; rfl
  | cons b bs ih =>
    intro rs hall
    show ((foldBoosters store e q bs (runBooster store e q b rs).1).1,
      (runBooster store e q b rs).2 ++ (foldBoosters store e q bs (runBooster store e q b rs).1).2) = _
    rw [runBooster_noapply store e q b rs (hall b (List.mem_cons_self b bs))]
    rw [ih rs (fun b' hb' => hall b' (List.mem_cons_of_mem b hb'))]
    rfl

theorem foldBoosters_trace (store : Store) (e : List ℚ) (q : Str) :
    ∀ (bs : List Booster) (rs : List ScoredItem),
      (foldBoosters store e q bs rs).2 =
        (bs.filter (fun b => b.shouldApply q)).map
          (fun b => (⟨e, b.secOptions, b.secFilter⟩ : QueryDesc)) := by
  intro bs
  induction bs with
  | nil => intro rs; rfl
  | cons b bs ih =>
    intro rs
    show (runBooster store e q b rs).2 ++
      (foldBoosters store e q bs (runBooster store e q b rs).1).2 = _
    rw [runBooster_snd, ih, List.filter_cons]
    by_cases h : b.shouldApply q
    · rw [if_pos h, if_pos (by exact h)]
      rfl
    · rw [if_neg h, if_neg (by simpa using h)]
      rfl

theorem foldBoosters_query_congr (store : Store) (e : List ℚ) (q1 q2 : Str) :
    ∀ (bs : List Booster) (rs : List ScoredItem),
      (∀ b ∈ bs, b.shouldApply q1 = b.shouldApply q2) →
      foldBoosters store e q1 bs rs = foldBoosters store e q2 bs rs := by
  intro bs
  induction bs with
  | nil => intro rs _; rfl
  | cons b bs ih =>
    intro rs hall
    have hb : runBooster store e q1 b rs = runBooster store e q2 b rs := by
      unfold runBooster
      rw [hall b (List.mem_cons_self b bs)]
    show ((foldBoosters store e q1 bs (runBooster store e q1 b rs).1).1,
        (runBooster store e q1 b rs).2 ++
          (foldBoosters store e q1 bs (runBooster store e q1 b rs).1).2) = _
    rw [hb, ih (runBooster store e q2 b rs).1
      (fun b' hb' => hall b' (List.mem_cons_of_mem b hb'))]
    rfl

theorem applyTotalMaxK_sorted (t : Option Nat) (rs : List ScoredItem)
    (h : rs.Sorted scoreGe) : (applyTotalMaxK t rs).Sorted scoreGe := by
  cases t with
  | none => exact h
  | some n =>
    exact List.Pairwise.sublist (List.take_sublist n _) (sortByScoreDesc_sorted rs)

theorem jsSplitSpaceAux_no_space :
    ∀ (cs acc : Str), (∀ c ∈ acc, c ≠ ' ') →
      ∀ w ∈ jsSplitSpaceAux cs acc, ∀ c ∈ w, c ≠ ' ' := by
  intro cs
  induction cs with
  | nil =>
    intro acc hacc w hw c hc
    rw [jsSplitSpaceAux] at hw
    rcases List.mem_singleton.mp hw with h
    subst h
    exact hacc c (List.mem_reverse.mp hc)
  | cons c0 cs ih =>
    intro acc hacc w hw c hc
    rw [jsSplitSpaceAux] at hw
    by_cases h0 : c0 = ' '
    · rw [if_pos h0] at hw
      rcases List.mem_cons.mp hw with h | h
      · subst h
        exact hacc c (List.mem_reverse.mp hc)
      · exact ih [] (by intro x hx; exact absurd hx (List.not_mem_nil x)) w h c hc
    · rw [if_neg h0] at hw
      refine ih (c0 :: acc) ?_ w hw c hc
      intro x hx
      rcases List.mem_cons.mp hx with h | h
      · subst h; exact h0
      · exact hacc x h

theorem jsSplitSpace_no_space_element (text : Str) :
    ∀ w ∈ jsSplitSpace text, w ≠ " ".data := by
  intro w hw hcontra
  have := jsSplitSpaceAux_no_space text []
    (by intro x hx; exact absurd hx (List.not_mem_nil x)) w hw ' '
  rw [hcontra] at this
  exact this (by simp) rfl

/-! ### Claim theorems -/

/-- C1: evaluation of `boostFoo`'s merge at a duplicate-text input.  The
carried-over item whose text equals a boosted item's text is NOT dropped:
the source computes the deduplicated `newResults` but returns
`[...boostedResults, ...fewerExistingResults]`, so the output contains two
items with the same text identity, refuting the claimed deduplication
invariant on this input. -/
theorem boostFoo_boost_retains_duplicate_text :
    dupBoosted.text = dupExisting.text ∧
    boostFooMergeStep [dupBoosted] [dupExisting] = [dupBoosted, dupExisting] ∧
    ¬ (boostFooMergeStep [dupBoosted] [dupExisting]).Pairwise
        (fun a b => a.text ≠ b.text) :=
  ⟨by decide, by decide, by decide⟩

/-- C2: the output of the reference booster's boost is always sorted by
descending score, and the pipeline output is sorted by descending score
whenever the store returns descending-sorted result sets and every
configured booster's merge returns descending-sorted result sets (the
hypothesis excluded exactly by a documented pin-to-front booster). -/
theorem retrieve_output_sorted_desc :
    (∀ boosted existing : List ScoredItem,
        (boostFooMergeStep boosted existing).Sorted scoreGe) ∧
    (∀ (emb : Embedder) (store : Store) (cfg : RetrieveConfig) (q : Str)
        (out : List ScoredItem),
        (∀ (e : List ℚ) (o : NNOptions) (f : Option MetaFilter)
            (r : List ScoredItem), store e o f = .ok r → r.Sorted scoreGe) →
        (∀ b ∈ cfg.boosters, ∀ (bo ex r : List ScoredItem),
            b.merge bo ex = .ok r → r.Sorted scoreGe) →
        (retrieve emb store cfg q).1 = .ok out → out.Sorted scoreGe) := by
  constructor
  · intro boosted existing
    rw [boostFooMergeStep_eq]
    exact sortByScoreDesc_sorted _
  · intro emb store cfg q out hstore hboost hout
    cases hemb : emb q with
    | error u => simp [retrieve, retrieveCore, hemb, Except.map] at hout
    | ok e =>
      cases hst : store e cfg.primaryOptions none with
      | error u => simp [retrieve, retrieveCore, hemb, hst, Except.map] at hout
      | ok primary =>
        have hout2 : out =
            applyTotalMaxK cfg.totalMaxK
              (foldBoosters store e q cfg.boosters primary).1 := by
          simp [retrieve, retrieveCore, hemb, hst, Except.map] at hout
          exact hout.symm
        rw [hout2]
        exact applyTotalMaxK_sorted _ _
          (foldBoosters_fst_sorted store e q cfg.boosters primary hboost
            (hstore e cfg.primaryOptions none primary hst))

/-- C2 witness: the sortedness theorem applied to a concrete pipeline. -/
theorem retrieve_output_sorted_desc_witness :
    ([mkItem "w" "docs" 1] : List ScoredItem).Sorted scoreGe := by
  refine retrieve_output_sorted_desc.2 embConst storeConst cfgPlain
    ("q".data) [mkItem "w" "docs" 1] ?_ ?_ rfl
  · intro e o f r h
    have h2 : ([mkItem "w" "docs" 1] : List ScoredItem) = r := by
      simpa [storeConst] using h
    cases h2
    exact List.sorted_singleton _
  · intro b hb
    exact absurd hb (by simp [cfgPlain])

/-- C3: at most 3 pre-boost items are carried over by the reference
booster's boost: its output is a permutation of the boosted items plus the
first three existing items, so its length is at most the number of boosted
items plus 3; and on the worked scenario (5 primary items scored 0.95 to
0.89, 2 boosted items scored 0.80 and 0.78 from a distinct source) the
output is exactly the 2 boosted items plus the top-3 primary items,
re-sorted descending, 5 items total. -/
theorem boostFoo_carryover_cap :
    (∀ boosted existing : List ScoredItem,
        List.Perm (boostFooMergeStep boosted existing)
          (boosted ++ existing.take 3)) ∧
    (∀ boosted existing : List ScoredItem,
        (boostFooMergeStep boosted existing).length ≤ boosted.length + 3) ∧
    boostFooMergeStep scenarioBoosted scenarioPrimary = scenarioExpected ∧
    scenarioExpected.length = 5 := by
  have hperm : ∀ boosted existing : List ScoredItem,
      List.Perm (boostFooMergeStep boosted existing)
        (boosted ++ existing.take 3) := by
    intro b ex
    rw [boostFooMergeStep_eq]
    exact sortByScoreDesc_perm _
  refine ⟨hperm, ?_, by decide, by decide⟩
  intro b ex
  rw [(hperm b ex).length_eq, List.length_append]
  have h3 : (ex.take 3).length ≤ 3 := by
    rw [List.length_take]
    exact min_le_left _ _
  omega

/-- C4: a booster whose predicate is false is an identity operation on the
result set (and issues no store query), and when every configured booster's
predicate is false (and no global truncation is configured) `retrieve`
returns the primary store result unchanged — same items, same order. -/
theorem retrieve_passthrough_when_no_booster_applies :
    (∀ (store : Store) (e : List ℚ) (q : Str) (b : Booster)
        (rs : List ScoredItem),
        b.shouldApply q = false → runBooster store e q b rs = (rs, [])) ∧
    (∀ (emb : Embedder) (store : Store) (cfg : RetrieveConfig) (q : Str)
        (e : List ℚ) (primary : List ScoredItem),
        cfg.totalMaxK = none → emb q = .ok e →
        store e cfg.primaryOptions none = .ok primary →
        (∀ b ∈ cfg.boosters, b.shouldApply q = false) →
        (retrieve emb store cfg q).1 = .ok primary) := by
  refine ⟨fun store e q b rs h => runBooster_noapply store e q b rs h, ?_⟩
  intro emb store cfg q e primary hmax hemb hst hall
  simp [retrieve, retrieveCore, hemb, hst, Except.map,
    foldBoosters_noapply store e q cfg.boosters primary hall, hmax, applyTotalMaxK]

/-- C4 witness: the pass-through theorem applied to a pipeline whose single
booster never applies. -/
theorem retrieve_passthrough_witness :
    (retrieve embConst storeConst cfgNever ("hello".data)).1 =
      .ok [mkItem "w" "docs" 1] :=
  retrieve_passthrough_when_no_booster_applies.2 embConst storeConst cfgNever
    ("hello".data) [1] [mkItem "w" "docs" 1] rfl rfl rfl (by
      intro b hb
      have hb2 : b = boosterNever := by simpa [cfgNever] using hb
      cases hb2
      rfl)

/-- C5: a booster whose secondary store query or merge step fails is treated
as a no-op at the fold step (the result set is unchanged), and in a pipeline
whose single booster's secondary query fails the caller receives exactly the
primary result — the booster failure is never surfaced as a retrieval
error. -/
theorem booster_failure_recovered :
    (∀ (store : Store) (e : List ℚ) (q : Str) (b : Booster)
        (rs : List ScoredItem),
        (store e b.secOptions b.secFilter = .error () ∨
          ∃ boosted, store e b.secOptions b.secFilter = .ok boosted ∧
            b.merge boosted rs = .error ()) →
        (runBooster store e q b rs).1 = rs) ∧
    (∀ (emb : Embedder) (store : Store) (cfg : RetrieveConfig) (q : Str)
        (e : List ℚ) (primary : List ScoredItem) (b : Booster),
        cfg.boosters = [b] → cfg.totalMaxK = none →
        emb q = .ok e → store e cfg.primaryOptions none = .ok primary →
        store e b.secOptions b.secFilter = .error () →
        (retrieve emb store cfg q).1 = .ok primary) := by
  refine ⟨fun store e q b rs h => runBooster_fail store e q b rs h, ?_⟩
  intro emb store cfg q e primary b hb hmax hemb hst hsec
  have h1 : (foldBoosters store e q cfg.boosters primary).1 = primary := by
    rw [hb]
    show (runBooster store e q b primary).1 = primary
    exact runBooster_fail store e q b primary (Or.inl hsec)
  simp [retrieve, retrieveCore, hemb, hst, Except.map, h1, hmax, applyTotalMaxK]

/-- C5 witness: the recovery theorem applied to a pipeline whose booster's
secondary (filtered) query fails while the primary query succeeds. -/
theorem booster_failure_recovered_witness :
    (retrieve embConst storeSecondaryFails cfgFoo ("foo".data)).1 =
      .ok scenarioPrimary :=
  booster_failure_recovered.2 embConst storeSecondaryFails cfgFoo ("foo".data)
    [1] scenarioPrimary boostFoo rfl rfl rfl rfl rfl

/-- C6: when the embedder fails, `retrieve` fails with `embeddingError` and
the trace shows no store query was attempted; when the embedder succeeds but
the primary store query fails, `retrieve` fails with `storeQueryError`. -/
theorem retrieve_typed_failures :
    (∀ (emb : Embedder) (store : Store) (cfg : RetrieveConfig) (q : Str),
        emb q = .error () →
        retrieve emb store cfg q = (.error .embeddingError, ⟨1, []⟩)) ∧
    (∀ (emb : Embedder) (store : Store) (cfg : RetrieveConfig) (q : Str)
        (e : List ℚ),
        emb q = .ok e → store e cfg.primaryOptions none = .error () →
        retrieve emb store cfg q =
          (.error .storeQueryError, ⟨1, [⟨e, cfg.primaryOptions, none⟩]⟩)) := by
  constructor
  · intro emb store cfg q h
    simp [retrieve, retrieveCore, h, Except.map]
  · intro emb store cfg q e hemb hst
    simp [retrieve, retrieveCore, hemb, hst, Except.map]

/-- C6 witness: both typed failures at concrete inputs. -/
theorem retrieve_typed_failures_witness :
    retrieve embFail storeConst cfgPlain ("q".data) =
      (.error .embeddingError, ⟨1, []⟩) ∧
    retrieve embConst storeFail cfgPlain ("q".data) =
      (.error .storeQueryError, ⟨1, [⟨[1], cfgPlain.primaryOptions, none⟩]⟩) :=
  ⟨retrieve_typed_failures.1 embFail storeConst cfgPlain ("q".data) rfl,
    retrieve_typed_failures.2 embConst storeFail cfgPlain ("q".data) [1] rfl rfl⟩

/-- C7: with a configured `totalMaxK = n` the pipeline output has length at
most `n` and is the `n`-prefix of the descending-sorted post-boost result
set (the `n` highest-scored remaining items); at the deployed value
`totalMaxK = 5` the output never exceeds 5 items. -/
theorem retrieve_totalMaxK_caps_output :
    (∀ (emb : Embedder) (store : Store) (cfg : RetrieveConfig) (q : Str)
        (n : Nat) (out : List ScoredItem),
        cfg.totalMaxK = some n → (retrieve emb store cfg q).1 = .ok out →
        out.length ≤ n ∧
        ∃ pre, (retrieveCore emb store cfg q).1 = .ok pre ∧
          out = (sortByScoreDesc pre).take n) ∧
    (∀ (emb : Embedder) (store : Store) (cfg : RetrieveConfig) (q : Str)
        (out : List ScoredItem),
        cfg.totalMaxK = some boostManualTotalMaxK →
        (retrieve emb store cfg q).1 = .ok out → out.length ≤ 5) := by
  have main : ∀ (emb : Embedder) (store : Store) (cfg : RetrieveConfig)
      (q : Str) (n : Nat) (out : List ScoredItem),
      cfg.totalMaxK = some n → (retrieve emb store cfg q).1 = .ok out →
      out.length ≤ n ∧
      ∃ pre, (retrieveCore emb store cfg q).1 = .ok pre ∧
        out = (sortByScoreDesc pre).take n := by
    intro emb store cfg q n out hmax hout
    have hr : (retrieve emb store cfg q).1 =
        (retrieveCore emb store cfg q).1.map (applyTotalMaxK cfg.totalMaxK) := rfl
    rw [hr, hmax] at hout
    rcases hcore : (retrieveCore emb store cfg q).1 with err | pre
    · rw [hcore] at hout
      simp [Except.map] at hout
    · rw [hcore] at hout
      simp [Except.map, applyTotalMaxK] at hout
      refine ⟨?_, pre, rfl, hout.symm⟩
      rw [← hout, List.length_take]
      exact min_le_left _ _
  refine ⟨main, ?_⟩
  intro emb store cfg q out hmax hout
  exact (main emb store cfg q boostManualTotalMaxK out hmax hout).1

/-- C7 witness: the truncation theorem applied to a pipeline configured with
the deployed `totalMaxK`. -/
theorem retrieve_totalMaxK_caps_output_witness :
    ([mkItem "w" "docs" 1] : List ScoredItem).length ≤ boostManualTotalMaxK ∧
    ∃ pre, (retrieveCore embConst storeConst cfgCapped ("q".data)).1 = .ok pre ∧
      ([mkItem "w" "docs" 1] : List ScoredItem) =
        (sortByScoreDesc pre).take boostManualTotalMaxK :=
  retrieve_totalMaxK_caps_output.1 embConst storeConst cfgCapped ("q".data)
    boostManualTotalMaxK [mkItem "w" "docs" 1] rfl rfl

/-- C8: retrieval is deterministic with respect to the vector space: for two
query texts with the same embedding on which every configured booster's
predicate agrees, `retrieve` produces identical results and traces — booster
merges depend only on the embedding, the store and the current result set,
never on the raw query text (the re-run of an identical query is the special
case of equal texts). -/
theorem retrieve_deterministic (emb : Embedder) (store : Store)
    (cfg : RetrieveConfig) (q1 q2 : Str) (hemb : emb q1 = emb q2)
    (hpred : ∀ b ∈ cfg.boosters, b.shouldApply q1 = b.shouldApply q2) :
    retrieve emb store cfg q1 = retrieve emb store cfg q2 := by
  have hcore : retrieveCore emb store cfg q1 = retrieveCore emb store cfg q2 := by
    rcases h : emb q2 with u | e
    · have h1 : emb q1 = .error u := by rw [hemb, h]
      simp [retrieveCore, h1, h]
    · have h1 : emb q1 = .ok e := by rw [hemb, h]
      rcases h2 : store e cfg.primaryOptions none with u | primary
      · simp [retrieveCore, h1, h, h2]
      · have hf := foldBoosters_query_congr store e q1 q2 cfg.boosters primary hpred
        simp [retrieveCore, h1, h, h2, hf]
  unfold retrieve
  rw [hcore]

/-- C8 witness: two distinct query texts with equal embeddings give equal
retrievals. -/
theorem retrieve_deterministic_witness :
    retrieve embConst storeConst cfgPlain ("aa".data) =
      retrieve embConst storeConst cfgPlain ("bb".data) :=
  retrieve_deterministic embConst storeConst cfgPlain ("aa".data) ("bb".data)
    rfl (by
      intro b hb
      exact absurd hb (by simp [cfgPlain]))

/-- C9: one embedder call per retrieval; the store-query trace is exactly
the primary query followed by one secondary query per applying booster,
each issued with that booster's own options and metadata filter; the
reference booster's secondary query is scoped to its data source by a
metadata filter with its own k and minScore, more permissive than the
primary query's minScore (0 < 0.9 in the documentation example;
0.88 < 0.9 in the deployed boostManual configuration). -/
theorem retrieve_call_accounting :
    (∀ (emb : Embedder) (store : Store) (cfg : RetrieveConfig) (q : Str)
        (e : List ℚ) (primary : List ScoredItem),
        emb q = .ok e → store e cfg.primaryOptions none = .ok primary →
        (retrieve emb store cfg q).2.embedCalls = 1 ∧
        (retrieve emb store cfg q).2.storeQueries =
          ⟨e, cfg.primaryOptions, none⟩ ::
            (cfg.boosters.filter (fun b => b.shouldApply q)).map
              (fun b => (⟨e, b.secOptions, b.secFilter⟩ : QueryDesc))) ∧
    (boostFoo.secFilter = some [("dataSource".data, "foo".data)] ∧
      boostFoo.secOptions.k = 2 ∧ boostFoo.secOptions.minScore = 0 ∧
      boostFoo.secOptions.minScore < docPrimaryMinScore) ∧
    (boostManualFilter = [("sourceName".data, "snooty-docs".data)] ∧
      boostManualK = 2 ∧ boostManualMinScore < configPrimaryMinScore) := by
  refine ⟨?_, ⟨rfl, rfl, rfl, by decide⟩, ⟨rfl, rfl, by decide⟩⟩
  intro emb store cfg q e primary hemb hst
  have h2 : (retrieve emb store cfg q).2 =
      ⟨1, ⟨e, cfg.primaryOptions, none⟩ ::
        (foldBoosters store e q cfg.boosters primary).2⟩ := by
    simp [retrieve, retrieveCore, hemb, hst]
  rw [h2, foldBoosters_trace]
  exact ⟨rfl, rfl⟩

/-- C9 witness: the accounting theorem applied to a pipeline with the
reference booster on a query it applies to. -/
theorem retrieve_call_accounting_witness :
    (retrieve embConst storeConst cfgFoo ("foo".data)).2.embedCalls = 1 ∧
    (retrieve embConst storeConst cfgFoo ("foo".data)).2.storeQueries =
      ⟨[1], cfgFoo.primaryOptions, none⟩ ::
        (cfgFoo.boosters.filter (fun b => b.shouldApply ("foo".data))).map
          (fun b => (⟨[1], b.secOptions, b.secFilter⟩ : QueryDesc)) :=
  retrieve_call_accounting.1 embConst storeConst cfgFoo ("foo".data)
    [1] [mkItem "w" "docs" 1] rfl rfl

/-- C10: `boostManual.shouldBoostFunc` is true exactly when splitting the
query text at spaces yields at most 3 elements: the filter removes nothing,
because splitting at a space never produces a single-space element, so empty
elements arising from leading, trailing or doubled spaces all count toward
the 3-word limit — a two-word query containing a doubled space splits into 3
elements and still passes. -/
theorem boostManual_shouldBoost_iff_word_count :
    (∀ text : Str,
        boostManual_shouldBoostFunc text = true ↔
          (jsSplitSpace text).length ≤ 3) ∧
    (jsSplitSpace ("hi  yo".data)).length = 3 ∧
    boostManual_shouldBoostFunc ("hi  yo".data) = true := by
  refine ⟨?_, by decide, by decide⟩
  intro text
  unfold boostManual_shouldBoostFunc
  have hfilter : (jsSplitSpace text).filter (fun s => s != (" ".data)) =
      jsSplitSpace text := by
    rw [List.filter_eq_self]
    intro w hw
    exact bne_iff_ne.mpr (jsSplitSpace_no_space_element text w hw)
  rw [hfilter]
  exact decide_eq_true_iff

end ChatbotRetrieval
